import Mathlib

/-!
Shallow embedding of `src/security_analyzer.py` (AWS-Cloud-Risk-Analyzer).

Python exceptions are modelled by an explicit error type `PyErr`; every
boto3 call is a field of an `Env` record returning `Except PyErr _`, so one
`Env` value fixes the cloud state together with a pattern of call failures.
Each `check_*` function returns `Except PyErr (List String × List Finding)`
mirroring the Python pair `(findings, detailed_findings)`; a top-level
`.error` means an exception escaped the function (in this code that can
only come from `boto3.client(...)`, which runs before each check's `try`).
Mutable list accumulation across a loop that may raise midway is modelled
by `runItems`, which returns the state accumulated before the first error
together with that error, exactly as the Python `try`/`except` observes it.
-/

/-- One detected issue: mirrors the Python dict appended to
`detailed_findings` (all values are strings in the source). -/
structure Finding where
  service : String
  issue_type : String
  description : String
  severity : String
  resource : String
  recommendation : String
deriving DecidableEq, Repr

/-- A Python exception: either a `botocore.exceptions.ClientError`
carrying `e.response['Error']['Code']`, or any other `Exception`. -/
inductive PyErr where
  | clientError (code : String) (msg : String)
  | otherError (msg : String)
deriving DecidableEq, Repr

/-- Rendering of `str(e)` as used in the f-string error messages. -/
def pyStr : PyErr → String
  | .clientError code m => "An error occurred (" ++ code ++ "): " ++ m
  | .otherError m => m

/-- An S3 bucket record (`bucket['Name']`). -/
structure Bucket where
  name : String
deriving DecidableEq, Repr

/-- One ACL grant, reduced to `str(grant['Grantee'])`. -/
structure Grant where
  grantee : String
deriving DecidableEq, Repr

/-- One entry of `perm['IpRanges']` (`ip_range.get('CidrIp')`). -/
structure IpRange where
  cidrIp : String
deriving DecidableEq, Repr

/-- One entry of `sg['IpPermissions']`; `FromPort`/`ToPort` may be absent
(`perm.get(...)` returns `None`), hence `Option`. -/
structure IpPermission where
  ipProtocol : Option String
  fromPort : Option Int
  toPort : Option Int
  ipRanges : List IpRange
deriving DecidableEq, Repr

/-- A security group (`sg['GroupId']`, `sg['IpPermissions']`). -/
structure SecurityGroup where
  groupId : String
  ipPermissions : List IpPermission
deriving DecidableEq, Repr

/-- An IAM user record (`user['UserName']`). -/
structure User where
  userName : String
deriving DecidableEq, Repr

/-- One entry of `AccessKeyMetadata` (`key['AccessKeyId']`). -/
structure AccessKey where
  accessKeyId : String
deriving DecidableEq, Repr

/-- An RDS instance record. -/
structure DbInstance where
  dbInstanceIdentifier : String
  publiclyAccessible : Bool
deriving DecidableEq, Repr

/-- The cloud state together with a failure pattern: each field models one
boto3 client constructor or API call, returning its result or the
exception it raises.  The `*Client` fields model `boto3.client(...)`,
which each check runs before its `try` block. -/
structure Env where
  s3Client : Except PyErr Unit
  ec2Client : Except PyErr Unit
  cloudtrailClient : Except PyErr Unit
  iamClient : Except PyErr Unit
  rdsClient : Except PyErr Unit
  listBuckets : Except PyErr (List Bucket)
  getBucketAcl : String → Except PyErr (List Grant)
  getBucketPolicy : String → Except PyErr String
  describeSecurityGroups : Except PyErr (List SecurityGroup)
  lookupEvents : Except PyErr (List String)
  listUsers : Except PyErr (List User)
  listMfaDevices : String → Except PyErr (List String)
  listAccessKeys : String → Except PyErr (List AccessKey)
  getAccessKeyLastUsed : String → Except PyErr Bool
  describeDbInstances : Except PyErr (List DbInstance)

/-- Sequential processing of items by a step that may raise: returns the
`(findings, detailed_findings)` contributions accumulated before the first
raising item, and that item's error if any — the state a surrounding
Python `except` handler observes.  Each step's own contribution is atomic
in the source (all appends happen after the calls that can raise). -/
def runItems (step : α → Except PyErr (List String × List Finding)) :
    List α → (List String × List Finding) × Option PyErr
  | [] => (([], []), none)
  | a :: as =>
    match step a with
    | .error e => (([], []), some e)
    | .ok (m, d) =>
      let r := runItems step as
      ((m ++ r.1.1, d ++ r.1.2), r.2)

/-- Detailed-findings contribution of one item when its step succeeds. -/
def stepDet (step : α → Except PyErr (List String × List Finding)) (a : α) : List Finding :=
  match step a with
  | .ok r => r.2
  | .error _ => []

/-- Legacy-findings contribution of one item when its step succeeds. -/
def stepMsg (step : α → Except PyErr (List String × List Finding)) (a : α) : List String :=
  match step a with
  | .ok r => r.1
  | .error _ => []

/-! ### check_s3_public_buckets -/

/-- Python's substring containment `needle in hay`, as a contiguous
subsequence test on the character lists. -/
def strContains (needle hay : String) : Bool :=
  decide (needle.toList <:+: hay.toList)

/-- The test `'AllUsers' in str(grantee) or 'AuthenticatedUsers' in str(grantee)`. -/
def grantPublic (g : Grant) : Bool :=
  strContains "AllUsers" g.grantee || strContains "AuthenticatedUsers" g.grantee

/-- The test `'"Principal": "*"' in policy['Policy']`. -/
def policyPublic (policy : String) : Bool :=
  strContains "\"Principal\": \"*\"" policy

/-- The per-bucket public test of `check_s3_public_buckets`: ACL grants
scan, then the bucket-policy probe whose `try` swallows any `ClientError`
("no bucket policy exists") but lets other exceptions escape. -/
def bucketIsPublic (env : Env) (name : String) : Except PyErr Bool := do
  let grants ← env.getBucketAcl name
  let aclPub := grants.any grantPublic
  match env.getBucketPolicy name with
  | .ok policy => pure (aclPub || policyPublic policy)
  | .error (.clientError _ _) => pure aclPub
  | .error e => throw e

/-- The Critical Finding for a publicly accessible bucket. -/
def publicBucketFinding (name : String) : Finding :=
  { service := "S3"
    issue_type := "Public Bucket"
    description := "Bucket \"" ++ name ++ "\" is publicly accessible"
    severity := "Critical"
    resource := name
    recommendation := "Review bucket permissions and restrict public access" }

/-- The Medium Finding emitted when a bucket's ACL lookup is denied. -/
def s3AccessDeniedFinding (name : String) : Finding :=
  { service := "S3"
    issue_type := "Access Denied"
    description := "Cannot access bucket \"" ++ name ++ "\" for security analysis"
    severity := "Medium"
    resource := name
    recommendation := "Ensure appropriate permissions for security scanning" }

/-- Per-bucket body plus its `except ClientError` handler: `AccessDenied`
is downgraded to a Medium Finding, any other `ClientError` is re-raised,
non-`ClientError` exceptions pass through untouched. -/
def s3PerBucket (env : Env) (name : String) : Except PyErr (List String × List Finding) :=
  match bucketIsPublic env name with
  | .ok true => .ok (["Public S3 Bucket: " ++ name], [publicBucketFinding name])
  | .ok false => .ok ([], [])
  | .error (.clientError code m) =>
    if code = "AccessDenied" then
      .ok (["Access Denied: Cannot check ACL for bucket " ++ name], [s3AccessDeniedFinding name])
    else
      .error (.clientError code m)
  | .error e => .error e

/-- The check-level `except Exception` handler applied to the loop
outcome: on an escaped error the error line is appended to the legacy
list and the detailed findings accumulated so far are returned
unchanged; with no error the accumulated state is returned as is. -/
def wrapCheck (errPrefix : String)
    (res : (List String × List Finding) × Option PyErr) :
    Except PyErr (List String × List Finding) :=
  match res with
  | (st, none) => .ok st
  | ((ms, ds), some e) => .ok (ms ++ [errPrefix ++ pyStr e], ds)

/-- Function `check_s3_public_buckets`: client construction, then the whole loop
wrapped in the function's catch-all, which appends only an error string to
the legacy list and keeps the detailed findings accumulated so far. -/
def check_s3_public_buckets (env : Env) : Except PyErr (List String × List Finding) :=
  match env.s3Client with
  | .error e => .error e
  | .ok _ =>
    match env.listBuckets with
    | .error e => .ok (["Error checking S3 buckets: " ++ pyStr e], [])
    | .ok buckets =>
      wrapCheck "Error checking S3 buckets: "
        (runItems (fun b => s3PerBucket env b.name) buckets)

/-! ### check_security_groups -/

/-- The test `perm.get('FromPort') in [22, 3389, 1433, 3306, 5432]`
(`None` is in no such list). -/
def isCriticalPort (p : Option Int) : Bool :=
  ([some 22, some 3389, some 1433, some 3306, some 5432] : List (Option Int)).contains p

/-- Python `f"...{x}..."` rendering of a maybe-absent port. -/
def optIntStr : Option Int → String
  | none => "None"
  | some n => toString n

/-- Python rendering of a maybe-absent protocol string. -/
def optProtoStr : Option String → String
  | none => "None"
  | some s => s

/-- The `port_info` f-string of `check_security_groups`. -/
def portInfo (perm : IpPermission) : String :=
  if perm.fromPort = perm.toPort then "port " ++ optIntStr perm.fromPort
  else "ports " ++ optIntStr perm.fromPort ++ "-" ++ optIntStr perm.toPort

/-- The Finding for one world-open ingress rule; Critical exactly when
`FromPort` is in the sensitive list, else High. -/
def permissiveSgFinding (sg : SecurityGroup) (perm : IpPermission) : Finding :=
  { service := "EC2"
    issue_type := "Permissive Security Group"
    description := "Security group allows " ++ optProtoStr perm.ipProtocol ++
      " traffic on " ++ portInfo perm ++ " from anywhere"
    severity := if isCriticalPort perm.fromPort then "Critical" else "High"
    resource := sg.groupId
    recommendation := "Restrict source IP ranges to specific networks or addresses" }

/-- Contribution of one `ip_range`: one Finding iff its CIDR is the
unrestricted range. -/
def sgRangeDetailed (sg : SecurityGroup) (perm : IpPermission) (r : IpRange) : List Finding :=
  if r.cidrIp = "0.0.0.0/0" then [permissiveSgFinding sg perm] else []

/-- Legacy message of one matching `ip_range`. -/
def sgRangeMsg (sg : SecurityGroup) (perm : IpPermission) (r : IpRange) : List String :=
  if r.cidrIp = "0.0.0.0/0" then
    ["Overly permissive SG: " ++ sg.groupId ++ " allows " ++ optProtoStr perm.ipProtocol ++
      " on " ++ portInfo perm ++ " from 0.0.0.0/0"]
  else []

/-- Detailed findings of one security group (nested loops of the source). -/
def sgDetailed (sg : SecurityGroup) : List Finding :=
  sg.ipPermissions.flatMap fun perm => perm.ipRanges.flatMap (sgRangeDetailed sg perm)

/-- Legacy findings of one security group. -/
def sgMsgs (sg : SecurityGroup) : List String :=
  sg.ipPermissions.flatMap fun perm => perm.ipRanges.flatMap (sgRangeMsg sg perm)

/-- Function `check_security_groups`: after the enumeration succeeds the loop body
is pure, so the catch-all only handles an enumeration failure. -/
def check_security_groups (env : Env) : Except PyErr (List String × List Finding) :=
  match env.ec2Client with
  | .error e => .error e
  | .ok _ =>
    match env.describeSecurityGroups with
    | .error e => .ok (["Error checking security groups: " ++ pyStr e], [])
    | .ok groups => .ok (groups.flatMap sgMsgs, groups.flatMap sgDetailed)

/-! ### check_root_usage -/

/-- The Critical Finding for detected root-account activity. -/
def rootUsageFinding (n : Nat) : Finding :=
  { service := "IAM"
    issue_type := "Root Account Usage"
    description := "Root account has been used " ++ toString n ++ " times recently"
    severity := "Critical"
    resource := "Root Account"
    recommendation := "Use IAM users with appropriate permissions instead of root account" }

/-- Function `check_root_usage`: one CloudTrail lookup; a Finding iff the returned
event list is non-empty. -/
def check_root_usage (env : Env) : Except PyErr (List String × List Finding) :=
  match env.cloudtrailClient with
  | .error e => .error e
  | .ok _ =>
    match env.lookupEvents with
    | .error e => .ok (["Error checking root usage: " ++ pyStr e], [])
    | .ok events =>
      if events.isEmpty then .ok ([], [])
      else
        .ok (["Root account usage detected (" ++ toString events.length ++ " recent events)"],
          [rootUsageFinding events.length])

/-! ### check_users_without_mfa -/

/-- The High Finding for a user without any MFA device. -/
def noMfaFinding (userName : String) : Finding :=
  { service := "IAM"
    issue_type := "No MFA"
    description := "User \"" ++ userName ++ "\" does not have MFA configured"
    severity := "High"
    resource := userName
    recommendation := "Enable MFA for all IAM users with console access" }

/-- Per-user step of `check_users_without_mfa`: the MFA-device listing may
raise (escaping to the check's catch-all), else a Finding iff it is empty. -/
def mfaUserStep (env : Env) (u : User) : Except PyErr (List String × List Finding) :=
  match env.listMfaDevices u.userName with
  | .error e => .error e
  | .ok mfa =>
    if mfa.isEmpty then
      .ok (["IAM User " ++ u.userName ++ " has no MFA enabled"], [noMfaFinding u.userName])
    else .ok ([], [])

/-- Function `check_users_without_mfa`. -/
def check_users_without_mfa (env : Env) : Except PyErr (List String × List Finding) :=
  match env.iamClient with
  | .error e => .error e
  | .ok _ =>
    match env.listUsers with
    | .error e => .ok (["Error checking MFA status: " ++ pyStr e], [])
    | .ok users =>
      wrapCheck "Error checking MFA status: " (runItems (mfaUserStep env) users)

/-! ### check_unused_access_keys -/

/-- The Medium Finding for a never-used access key. -/
def unusedKeyFinding (userName keyId : String) : Finding :=
  { service := "IAM"
    issue_type := "Unused Access Key"
    description := "Access key for user \"" ++ userName ++ "\" has never been used"
    severity := "Medium"
    resource := userName ++ " (" ++ keyId.take 8 ++ "...)"
    recommendation := "Remove unused access keys to reduce attack surface" }

/-- Per-key body of `check_unused_access_keys`: the last-used lookup is
wrapped in `except Exception: pass`, so a failing lookup contributes
nothing and never raises; on success a Finding iff `LastUsedDate` is
absent (the `Bool` the env returns is its presence). -/
def keyStep (env : Env) (userName : String) (key : AccessKey) : List String × List Finding :=
  match env.getAccessKeyLastUsed key.accessKeyId with
  | .error _ => ([], [])
  | .ok hasLastUsedDate =>
    if hasLastUsedDate then ([], [])
    else (["Unused access key for user " ++ userName],
      [unusedKeyFinding userName key.accessKeyId])

/-- Per-user step: listing a user's keys may raise (escaping to the
check's catch-all); the key loop itself cannot. -/
def userKeysStep (env : Env) (u : User) : Except PyErr (List String × List Finding) :=
  match env.listAccessKeys u.userName with
  | .error e => .error e
  | .ok keys =>
    .ok (keys.flatMap fun k => (keyStep env u.userName k).1,
      keys.flatMap fun k => (keyStep env u.userName k).2)

/-- Function `check_unused_access_keys`. -/
def check_unused_access_keys (env : Env) : Except PyErr (List String × List Finding) :=
  match env.iamClient with
  | .error e => .error e
  | .ok _ =>
    match env.listUsers with
    | .error e => .ok (["Error checking access keys: " ++ pyStr e], [])
    | .ok users =>
      wrapCheck "Error checking access keys: " (runItems (userKeysStep env) users)

/-! ### check_public_rds_instances -/

/-- The Critical Finding for a publicly accessible RDS instance. -/
def publicRdsFinding (ident : String) : Finding :=
  { service := "RDS"
    issue_type := "Public Database"
    description := "RDS instance \"" ++ ident ++ "\" is publicly accessible"
    severity := "Critical"
    resource := ident
    recommendation := "Disable public accessibility and use VPC security groups" }

/-- Detailed contribution of one RDS instance. -/
def rdsInstanceDetailed (inst : DbInstance) : List Finding :=
  if inst.publiclyAccessible then [publicRdsFinding inst.dbInstanceIdentifier] else []

/-- Legacy contribution of one RDS instance. -/
def rdsInstanceMsg (inst : DbInstance) : List String :=
  if inst.publiclyAccessible then ["Public RDS instance: " ++ inst.dbInstanceIdentifier] else []

/-- Function `check_public_rds_instances`: pure loop after the enumeration. -/
def check_public_rds_instances (env : Env) : Except PyErr (List String × List Finding) :=
  match env.rdsClient with
  | .error e => .error e
  | .ok _ =>
    match env.describeDbInstances with
    | .error e => .ok (["Error checking RDS instances: " ++ pyStr e], [])
    | .ok instances => .ok (instances.flatMap rdsInstanceMsg, instances.flatMap rdsInstanceDetailed)

/-! ### get_detailed_findings (the Runner) -/

/-- The fixed ordered check list of `get_detailed_findings`, with the
`__name__` each entry reports in a Check Error description. -/
def checks : List (String × (Env → Except PyErr (List String × List Finding))) :=
  [("check_s3_public_buckets", check_s3_public_buckets),
   ("check_security_groups", check_security_groups),
   ("check_root_usage", check_root_usage),
   ("check_users_without_mfa", check_users_without_mfa),
   ("check_unused_access_keys", check_unused_access_keys),
   ("check_public_rds_instances", check_public_rds_instances)]

/-- The synthetic Finding the Runner appends when a check raises. -/
def checkErrorFinding (checkName : String) (e : PyErr) : Finding :=
  { service := "System"
    issue_type := "Check Error"
    description := "Error running " ++ checkName ++ ": " ++ pyStr e
    severity := "Medium"
    resource := "Security Scanner"
    recommendation := "Check AWS credentials and permissions" }

/-- One iteration of the Runner loop: the `try` around the call keeps the
check's detailed findings on success and substitutes the synthetic error
Finding on failure. -/
def runCheckSafe (env : Env)
    (c : String × (Env → Except PyErr (List String × List Finding))) : List Finding :=
  match c.2 env with
  | .ok r => r.2
  | .error e => [checkErrorFinding c.1 e]

/-- The merged collection `get_detailed_findings` returns. -/
def getDetailedFindingsList (env : Env) : List Finding :=
  (checks.map (runCheckSafe env)).flatten

/-- One iteration of the Runner loop at the exception level: `try` the
check, extend the accumulator with its detailed findings, `except` extend
it with the synthetic error Finding instead. -/
def runnerStep (env : Env) (acc : List Finding)
    (c : String × (Env → Except PyErr (List String × List Finding))) :
    Except PyErr (List Finding) :=
  match c.2 env with
  | .ok r => .ok (acc ++ r.2)
  | .error e => .ok (acc ++ [checkErrorFinding c.1 e])

/-- Function `get_detailed_findings` at the exception level: the loop body catches
each check's exception, so the only way this could be `.error` is an
exception outside all handlers — there is none, which is the content of
the never-raises theorem below. -/
def get_detailed_findings (env : Env) : Except PyErr (List Finding) :=
  checks.foldlM (runnerStep env) []

/-! ### get_summary_stats -/

/-- The dict returned by `get_summary_stats`. -/
structure SummaryStats where
  total_issues : Nat
  critical_issues : Nat
  high_issues : Nat
  medium_issues : Nat
  services_affected : Nat
  scan_timestamp : String
deriving DecidableEq, Repr

/-- The pure reduction inside `get_summary_stats` (`datetime.now()` is the
`now` argument; `len(set(...))` is the length of the deduplicated list). -/
def summaryOf (findings : List Finding) (now : String) : SummaryStats :=
  { total_issues := findings.length
    critical_issues := (findings.filter fun f => f.severity == "Critical").length
    high_issues := (findings.filter fun f => f.severity == "High").length
    medium_issues := (findings.filter fun f => f.severity == "Medium").length
    services_affected := ((findings.map fun f => f.service).dedup).length
    scan_timestamp := now }

/-- Function `get_summary_stats`: recomputes the detailed findings, then reduces. -/
def get_summary_stats (env : Env) (now : String) : SummaryStats :=
  summaryOf (getDetailedFindingsList env) now

/-! ### Concrete environments used in scenarios and counterexamples -/

/-- The account with zero resources of every category: every client
constructs, every enumeration succeeds and is empty. -/
def emptyEnv : Env where
  s3Client := .ok ()
  ec2Client := .ok ()
  cloudtrailClient := .ok ()
  iamClient := .ok ()
  rdsClient := .ok ()
  listBuckets := .ok []
  getBucketAcl := fun _ => .ok []
  getBucketPolicy := fun _ => .error (.clientError "NoSuchBucketPolicy" "no policy")
  describeSecurityGroups := .ok []
  lookupEvents := .ok []
  listUsers := .ok []
  listMfaDevices := fun _ => .ok []
  listAccessKeys := fun _ => .ok []
  getAccessKeyLastUsed := fun _ => .ok true
  describeDbInstances := .ok []

/-- One storage container whose ACL grants to any principal, no other
issue of any category. -/
def scenarioPublicBucketEnv : Env :=
  { emptyEnv with
    listBuckets := .ok [{ name := "data-bucket" }]
    getBucketAcl := fun _ =>
      .ok [{ grantee := "uri=http://acs.amazonaws.com/groups/global/AllUsers" }] }

/-- One security-group rule opening port 22 to the world. -/
def scenarioPort22Env : Env :=
  { emptyEnv with
    describeSecurityGroups := .ok
      [{ groupId := "sg-0123",
         ipPermissions :=
           [{ ipProtocol := some "tcp", fromPort := some 22, toPort := some 22,
              ipRanges := [{ cidrIp := "0.0.0.0/0" }] }] }] }

/-- One security-group rule opening port 8080 to the world. -/
def scenarioPort8080Env : Env :=
  { emptyEnv with
    describeSecurityGroups := .ok
      [{ groupId := "sg-0456",
         ipPermissions :=
           [{ ipProtocol := some "tcp", fromPort := some 8080, toPort := some 8080,
              ipRanges := [{ cidrIp := "0.0.0.0/0" }] }] }] }

/-- One user with two long-lived keys: the first key's last-used lookup
raises, the second key has never been used; plus a second user whose only
key has been used. -/
def scenarioUnusedKeyEnv : Env :=
  { emptyEnv with
    listUsers := .ok [{ userName := "carol" }, { userName := "dave" }]
    listAccessKeys := fun u =>
      if u = "carol" then
        .ok [{ accessKeyId := "AKIA0000FAIL" }, { accessKeyId := "AKIA1111IDLE" }]
      else .ok [{ accessKeyId := "AKIA2222USED" }]
    getAccessKeyLastUsed := fun k =>
      if k = "AKIA0000FAIL" then .error (.otherError "lookup failed")
      else if k = "AKIA1111IDLE" then .ok false
      else .ok true }

/-- Every client constructor fails: the worst case in which the whole scan
degrades to internal-failure Findings. -/
def allClientsFailEnv : Env :=
  { emptyEnv with
    s3Client := .error (.otherError "Unable to locate credentials")
    ec2Client := .error (.otherError "Unable to locate credentials")
    cloudtrailClient := .error (.otherError "Unable to locate credentials")
    iamClient := .error (.otherError "Unable to locate credentials")
    rdsClient := .error (.otherError "Unable to locate credentials") }

/-- A publicly readable bucket whose name is the empty string: the code
copies the name into `resource` unchanged. -/
def cexEmptyNameEnv : Env :=
  { emptyEnv with
    listBuckets := .ok [{ name := "" }]
    getBucketAcl := fun _ => .ok [{ grantee := "AllUsers" }] }

/-- The MFA check hits an access-denied error on the first user's device
listing while the second user genuinely has no MFA device. -/
def cexMfaDeniedEnv : Env :=
  { emptyEnv with
    listUsers := .ok [{ userName := "alice" }, { userName := "bob" }]
    listMfaDevices := fun u =>
      if u = "alice" then .error (.clientError "AccessDenied" "denied") else .ok [] }

/-- The S3 check finds a public bucket, then the next bucket's ACL lookup
raises a non-access-denied `ClientError`, which the per-bucket handler
re-raises into the check's catch-all. -/
def cexS3MidErrorEnv : Env :=
  { emptyEnv with
    listBuckets := .ok [{ name := "pub" }, { name := "locked" }]
    getBucketAcl := fun n =>
      if n = "pub" then .ok [{ grantee := "AllUsers" }]
      else .error (.clientError "Throttling" "rate exceeded") }

/-- Only the S3 client constructor fails; every other check runs
normally on the otherwise empty account. -/
def s3FailEnv : Env :=
  { emptyEnv with s3Client := .error (.otherError "Unable to locate credentials") }

/-- Two buckets: the first is readable and not public, the ACL lookup of
the second is denied. -/
def s3DeniedBucketEnv : Env :=
  { emptyEnv with
    listBuckets := .ok [{ name := "open-books" }, { name := "secret" }]
    getBucketAcl := fun n =>
      if n = "secret" then .error (.clientError "AccessDenied" "denied") else .ok [] }

/-! ### Lemmas about `runItems` -/

theorem runItems_mem {α : Type} (step : α → Except PyErr (List String × List Finding))
    (l : List α) (f : Finding) (hf : f ∈ (runItems step l).1.2) :
    ∃ a ∈ l, ∃ ms ds, step a = .ok (ms, ds) ∧ f ∈ ds := by
  induction l with
  | nil => simp [runItems] at hf
  | cons a as ih =>
    cases h : step a with
    | error e => simp [runItems, h] at hf
    | ok r =>
      obtain ⟨m, d⟩ := r
      simp only [runItems, h, List.mem_append] at hf
      rcases hf with hf | hf
      · exact ⟨a, by simp, m, d, h, hf⟩
      · obtain ⟨b, hb, ms, ds, hs, hfd⟩ := ih hf
        exact ⟨b, by simp [hb], ms, ds, hs, hfd⟩

theorem runItems_all_ok {α : Type} (step : α → Except PyErr (List String × List Finding))
    (l : List α) (h : ∀ a ∈ l, ∃ r, step a = .ok r) :
    runItems step l = ((l.flatMap (stepMsg step), l.flatMap (stepDet step)), none) := by
  induction l with
  | nil => simp [runItems]
  | cons a as ih =>
    obtain ⟨r, hr⟩ := h a (by simp)
    obtain ⟨m, d⟩ := r
    simp [runItems, hr, stepMsg, stepDet, ih (fun b hb => h b (by simp [hb]))]

theorem runItems_append {α : Type} (step : α → Except PyErr (List String × List Finding))
    (l1 l2 : List α) (h : ∀ a ∈ l1, ∃ r, step a = .ok r) :
    runItems step (l1 ++ l2) =
      ((l1.flatMap (stepMsg step) ++ (runItems step l2).1.1,
        l1.flatMap (stepDet step) ++ (runItems step l2).1.2),
        (runItems step l2).2) := by
  induction l1 with
  | nil => simp
  | cons a as ih =>
    obtain ⟨r, hr⟩ := h a (by simp)
    obtain ⟨m, d⟩ := r
    simp [runItems, hr, stepMsg, stepDet, ih (fun b hb => h b (by simp [hb])),
      List.append_assoc]

/-! ### The Runner loop never raises -/

theorem runnerStep_eq (env : Env) (acc : List Finding)
    (c : String × (Env → Except PyErr (List String × List Finding))) :
    runnerStep env acc c = .ok (acc ++ runCheckSafe env c) := by
  cases h : c.2 env <;> simp [runnerStep, runCheckSafe, h]

theorem runnerFold_eq (env : Env)
    (cs : List (String × (Env → Except PyErr (List String × List Finding))))
    (acc : List Finding) :
    cs.foldlM (runnerStep env) acc = .ok (acc ++ (cs.map (runCheckSafe env)).flatten) := by
  induction cs generalizing acc with
  | nil =>
    show Except.ok acc = _
    simp
  | cons c cs ih =>
    rw [List.foldlM_cons, runnerStep_eq]
    show cs.foldlM (runnerStep env) (acc ++ runCheckSafe env c) = _
    rw [ih]
    simp [List.append_assoc]

theorem get_detailed_findings_never_raises (env : Env) :
    get_detailed_findings env = .ok (getDetailedFindingsList env) := by
  rw [get_detailed_findings, runnerFold_eq, getDetailedFindingsList]
  simp

/-! ### Provenance of each check's detailed findings -/

theorem s3PerBucket_mem (env : Env) (n : String) (ms : List String) (ds : List Finding)
    (h : s3PerBucket env n = .ok (ms, ds)) (f : Finding) (hf : f ∈ ds) :
    f = publicBucketFinding n ∨ f = s3AccessDeniedFinding n := by
  unfold s3PerBucket at h
  cases hb : bucketIsPublic env n with
  | ok b =>
    rw [hb] at h
    cases b
    · simp at h
      obtain ⟨h1, h2⟩ := h
      subst h2
      simp at hf
    · simp at h
      obtain ⟨h1, h2⟩ := h
      subst h2
      simp at hf
      exact .inl hf
  | error e =>
    rw [hb] at h
    cases e with
    | clientError code m =>
      by_cases hcode : code = "AccessDenied"
      · simp [hcode] at h
        obtain ⟨h1, h2⟩ := h
        subst h2
        simp at hf
        exact .inr hf
      · simp [hcode] at h
    | otherError m => simp at h

theorem check_s3_mem (env : Env) (r : List String × List Finding)
    (h : check_s3_public_buckets env = .ok r) (f : Finding) (hf : f ∈ r.2) :
    ∃ bs, env.listBuckets = .ok bs ∧ ∃ b ∈ bs,
      (f = publicBucketFinding b.name ∨ f = s3AccessDeniedFinding b.name) := by
  unfold check_s3_public_buckets at h
  cases hc : env.s3Client with
  | error e => rw [hc] at h; simp at h
  | ok u =>
    rw [hc] at h
    dsimp only at h
    cases hl : env.listBuckets with
    | error e =>
      rw [hl] at h
      dsimp only at h
      injection h with h'
      rw [← h'] at hf
      simp at hf
    | ok bs =>
      rw [hl] at h
      dsimp only at h
      rcases hri : runItems (fun b => s3PerBucket env b.name) bs with ⟨⟨ms, ds⟩, err⟩
      rw [hri] at h
      have hds : f ∈ ds := by
        cases err with
        | none =>
          dsimp only [wrapCheck] at h
          injection h with h'
          rw [← h'] at hf
          exact hf
        | some e =>
          dsimp only [wrapCheck] at h
          injection h with h'
          rw [← h'] at hf
          exact hf
      obtain ⟨b, hb, ms', ds', hs, hfd⟩ :=
        runItems_mem (fun b => s3PerBucket env b.name) bs f (by rw [hri]; exact hds)
      exact ⟨bs, rfl, b, hb, s3PerBucket_mem env b.name ms' ds' hs f hfd⟩

theorem sgRangeDetailed_mem (sg : SecurityGroup) (perm : IpPermission) (rg : IpRange)
    (f : Finding) (hf : f ∈ sgRangeDetailed sg perm rg) : f = permissiveSgFinding sg perm := by
  unfold sgRangeDetailed at hf
  split at hf <;> simp at hf
  exact hf

theorem check_sg_mem (env : Env) (r : List String × List Finding)
    (h : check_security_groups env = .ok r) (f : Finding) (hf : f ∈ r.2) :
    ∃ gs, env.describeSecurityGroups = .ok gs ∧ ∃ sg ∈ gs, ∃ perm ∈ sg.ipPermissions,
      f = permissiveSgFinding sg perm := by
  unfold check_security_groups at h
  cases hc : env.ec2Client with
  | error e => rw [hc] at h; simp at h
  | ok u =>
    rw [hc] at h
    dsimp only at h
    cases hl : env.describeSecurityGroups with
    | error e =>
      rw [hl] at h
      dsimp only at h
      injection h with h'
      rw [← h'] at hf
      simp at hf
    | ok gs =>
      rw [hl] at h
      dsimp only at h
      injection h with h'
      rw [← h'] at hf
      simp only [List.mem_flatMap] at hf
      obtain ⟨sg, hsg, hf2⟩ := hf
      unfold sgDetailed at hf2
      simp only [List.mem_flatMap] at hf2
      obtain ⟨perm, hperm, hf3⟩ := hf2
      obtain ⟨rg, _, hrg⟩ := hf3
      exact ⟨gs, rfl, sg, hsg, perm, hperm, sgRangeDetailed_mem sg perm rg f hrg⟩

theorem check_root_mem (env : Env) (r : List String × List Finding)
    (h : check_root_usage env = .ok r) (f : Finding) (hf : f ∈ r.2) :
    ∃ evs, env.lookupEvents = .ok evs ∧ f = rootUsageFinding evs.length := by
  unfold check_root_usage at h
  cases hc : env.cloudtrailClient with
  | error e => rw [hc] at h; simp at h
  | ok u =>
    rw [hc] at h
    dsimp only at h
    cases hl : env.lookupEvents with
    | error e =>
      rw [hl] at h
      dsimp only at h
      injection h with h'
      rw [← h'] at hf
      simp at hf
    | ok evs =>
      rw [hl] at h
      dsimp only at h
      by_cases he : evs.isEmpty
      · simp only [he, if_true] at h
        injection h with h'
        rw [← h'] at hf
        simp at hf
      · simp only [he, if_false, Bool.false_eq_true] at h
        injection h with h'
        rw [← h'] at hf
        simp at hf
        exact ⟨evs, rfl, hf⟩

theorem mfaUserStep_mem (env : Env) (u : User) (ms : List String) (ds : List Finding)
    (h : mfaUserStep env u = .ok (ms, ds)) (f : Finding) (hf : f ∈ ds) :
    f = noMfaFinding u.userName := by
  unfold mfaUserStep at h
  cases hl : env.listMfaDevices u.userName with
  | error e => rw [hl] at h; simp at h
  | ok mfa =>
    rw [hl] at h
    dsimp only at h
    by_cases he : mfa.isEmpty
    · simp only [he, if_true] at h
      injection h with h'
      injection h' with h1 h2
      subst h2
      simp at hf
      exact hf
    · simp only [he, if_false, Bool.false_eq_true] at h
      injection h with h'
      injection h' with h1 h2
      subst h2
      simp at hf

theorem check_mfa_mem (env : Env) (r : List String × List Finding)
    (h : check_users_without_mfa env = .ok r) (f : Finding) (hf : f ∈ r.2) :
    ∃ us, env.listUsers = .ok us ∧ ∃ u ∈ us, f = noMfaFinding u.userName := by
  unfold check_users_without_mfa at h
  cases hc : env.iamClient with
  | error e => rw [hc] at h; simp at h
  | ok w =>
    rw [hc] at h
    dsimp only at h
    cases hl : env.listUsers with
    | error e =>
      rw [hl] at h
      dsimp only at h
      injection h with h'
      rw [← h'] at hf
      simp at hf
    | ok us =>
      rw [hl] at h
      dsimp only at h
      rcases hri : runItems (mfaUserStep env) us with ⟨⟨ms, ds⟩, err⟩
      rw [hri] at h
      have hds : f ∈ ds := by
        cases err with
        | none =>
          dsimp only [wrapCheck] at h
          injection h with h'
          rw [← h'] at hf
          exact hf
        | some e =>
          dsimp only [wrapCheck] at h
          injection h with h'
          rw [← h'] at hf
          exact hf
      obtain ⟨u, hu, ms', ds', hs, hfd⟩ :=
        runItems_mem (mfaUserStep env) us f (by rw [hri]; exact hds)
      exact ⟨us, rfl, u, hu, mfaUserStep_mem env u ms' ds' hs f hfd⟩

theorem keyStep_mem (env : Env) (un : String) (k : AccessKey) (f : Finding)
    (hf : f ∈ (keyStep env un k).2) : f = unusedKeyFinding un k.accessKeyId := by
  unfold keyStep at hf
  cases hl : env.getAccessKeyLastUsed k.accessKeyId with
  | error e => rw [hl] at hf; simp at hf
  | ok hasDate =>
    rw [hl] at hf
    cases hasDate
    · simp at hf
      exact hf
    · simp at hf

theorem userKeysStep_mem (env : Env) (u : User) (ms : List String) (ds : List Finding)
    (h : userKeysStep env u = .ok (ms, ds)) (f : Finding) (hf : f ∈ ds) :
    ∃ ks, env.listAccessKeys u.userName = .ok ks ∧ ∃ k ∈ ks,
      f = unusedKeyFinding u.userName k.accessKeyId := by
  unfold userKeysStep at h
  cases hl : env.listAccessKeys u.userName with
  | error e => rw [hl] at h; simp at h
  | ok ks =>
    rw [hl] at h
    dsimp only at h
    injection h with h'
    injection h' with h1 h2
    subst h2
    simp only [List.mem_flatMap] at hf
    obtain ⟨k, hk, hfk⟩ := hf
    exact ⟨ks, rfl, k, hk, keyStep_mem env u.userName k f hfk⟩

theorem check_keys_mem (env : Env) (r : List String × List Finding)
    (h : check_unused_access_keys env = .ok r) (f : Finding) (hf : f ∈ r.2) :
    ∃ us, env.listUsers = .ok us ∧ ∃ u ∈ us, ∃ ks,
      env.listAccessKeys u.userName = .ok ks ∧ ∃ k ∈ ks,
        f = unusedKeyFinding u.userName k.accessKeyId := by
  unfold check_unused_access_keys at h
  cases hc : env.iamClient with
  | error e => rw [hc] at h; simp at h
  | ok w =>
    rw [hc] at h
    dsimp only at h
    cases hl : env.listUsers with
    | error e =>
      rw [hl] at h
      dsimp only at h
      injection h with h'
      rw [← h'] at hf
      simp at hf
    | ok us =>
      rw [hl] at h
      dsimp only at h
      rcases hri : runItems (userKeysStep env) us with ⟨⟨ms, ds⟩, err⟩
      rw [hri] at h
      have hds : f ∈ ds := by
        cases err with
        | none =>
          dsimp only [wrapCheck] at h
          injection h with h'
          rw [← h'] at hf
          exact hf
        | some e =>
          dsimp only [wrapCheck] at h
          injection h with h'
          rw [← h'] at hf
          exact hf
      obtain ⟨u, hu, ms', ds', hs, hfd⟩ :=
        runItems_mem (userKeysStep env) us f (by rw [hri]; exact hds)
      obtain ⟨ks, hks, k, hk, hfk⟩ := userKeysStep_mem env u ms' ds' hs f hfd
      exact ⟨us, rfl, u, hu, ks, hks, k, hk, hfk⟩

theorem check_rds_mem (env : Env) (r : List String × List Finding)
    (h : check_public_rds_instances env = .ok r) (f : Finding) (hf : f ∈ r.2) :
    ∃ insts, env.describeDbInstances = .ok insts ∧ ∃ inst ∈ insts,
      f = publicRdsFinding inst.dbInstanceIdentifier := by
  unfold check_public_rds_instances at h
  cases hc : env.rdsClient with
  | error e => rw [hc] at h; simp at h
  | ok u =>
    rw [hc] at h
    dsimp only at h
    cases hl : env.describeDbInstances with
    | error e =>
      rw [hl] at h
      dsimp only at h
      injection h with h'
      rw [← h'] at hf
      simp at hf
    | ok insts =>
      rw [hl] at h
      dsimp only at h
      injection h with h'
      rw [← h'] at hf
      simp only [List.mem_flatMap] at hf
      obtain ⟨inst, hinst, hfi⟩ := hf
      unfold rdsInstanceDetailed at hfi
      split at hfi <;> simp at hfi
      exact ⟨insts, rfl, inst, hinst, hfi⟩

/-! ### Global shape of the merged collection -/

theorem mem_getDetailedFindingsList (env : Env) (f : Finding)
    (hf : f ∈ getDetailedFindingsList env) :
    ∃ c ∈ checks, f ∈ runCheckSafe env c := by
  unfold getDetailedFindingsList at hf
  simp only [List.mem_flatten, List.mem_map] at hf
  obtain ⟨l, ⟨c, hc, rfl⟩, hfl⟩ := hf
  exact ⟨c, hc, hfl⟩

theorem runCheckSafe_cases (env : Env)
    (c : String × (Env → Except PyErr (List String × List Finding))) (f : Finding)
    (hf : f ∈ runCheckSafe env c) :
    (∃ r, c.2 env = .ok r ∧ f ∈ r.2) ∨
      (∃ e, c.2 env = .error e ∧ f = checkErrorFinding c.1 e) := by
  unfold runCheckSafe at hf
  cases h : c.2 env with
  | ok r => rw [h] at hf; exact .inl ⟨r, rfl, hf⟩
  | error e =>
    rw [h] at hf
    simp at hf
    exact .inr ⟨e, rfl, hf⟩

/-- Every element of the merged collection is one of the eight Finding
constructors of the source. -/
theorem gdfl_shape (env : Env) (f : Finding) (hf : f ∈ getDetailedFindingsList env) :
    (∃ n, f = publicBucketFinding n) ∨ (∃ n, f = s3AccessDeniedFinding n) ∨
    (∃ sg perm, f = permissiveSgFinding sg perm) ∨ (∃ n, f = rootUsageFinding n) ∨
    (∃ u, f = noMfaFinding u) ∨ (∃ u k, f = unusedKeyFinding u k) ∨
    (∃ i, f = publicRdsFinding i) ∨ (∃ n e, f = checkErrorFinding n e) := by
  obtain ⟨c, hc, hrc⟩ := mem_getDetailedFindingsList env f hf
  rcases runCheckSafe_cases env c f hrc with ⟨r, hok, hmem⟩ | ⟨e, herr, hfe⟩
  · simp only [checks, List.mem_cons, List.mem_singleton] at hc
    rcases hc with h | h | h | h | h | h | h
    · subst h
      obtain ⟨bs, _, b, _, hsh⟩ := check_s3_mem env r hok f hmem
      rcases hsh with rfl | rfl
      · exact .inl ⟨b.name, rfl⟩
      · exact .inr (.inl ⟨b.name, rfl⟩)
    · subst h
      obtain ⟨gs, _, sg, _, perm, _, rfl⟩ := check_sg_mem env r hok f hmem
      exact .inr (.inr (.inl ⟨sg, perm, rfl⟩))
    · subst h
      obtain ⟨evs, _, rfl⟩ := check_root_mem env r hok f hmem
      exact .inr (.inr (.inr (.inl ⟨evs.length, rfl⟩)))
    · subst h
      obtain ⟨us, _, u, _, rfl⟩ := check_mfa_mem env r hok f hmem
      exact .inr (.inr (.inr (.inr (.inl ⟨u.userName, rfl⟩))))
    · subst h
      obtain ⟨us, _, u, _, ks, _, k, _, rfl⟩ := check_keys_mem env r hok f hmem
      exact .inr (.inr (.inr (.inr (.inr (.inl ⟨u.userName, k.accessKeyId, rfl⟩)))))
    · subst h
      obtain ⟨insts, _, inst, _, rfl⟩ := check_rds_mem env r hok f hmem
      exact .inr (.inr (.inr (.inr (.inr (.inr (.inl ⟨inst.dbInstanceIdentifier, rfl⟩))))))
    · exact absurd h (by simp)
  · exact .inr (.inr (.inr (.inr (.inr (.inr (.inr ⟨c.1, e, hfe⟩))))))

/-- Detailed findings of a successfully returning check never carry the
`System` service tag: that tag is reserved for the Runner's synthetic
error Finding. -/
theorem check_ok_not_system (env : Env)
    (c : String × (Env → Except PyErr (List String × List Finding))) (hc : c ∈ checks)
    (r : List String × List Finding) (hok : c.2 env = .ok r) (f : Finding) (hf : f ∈ r.2) :
    f.service ≠ "System" := by
  simp only [checks, List.mem_cons, List.mem_singleton] at hc
  rcases hc with h | h | h | h | h | h | h
  · subst h
    obtain ⟨bs, _, b, _, hsh⟩ := check_s3_mem env r hok f hf
    rcases hsh with rfl | rfl <;> simp [publicBucketFinding, s3AccessDeniedFinding]
  · subst h
    obtain ⟨gs, _, sg, _, perm, _, rfl⟩ := check_sg_mem env r hok f hf
    simp [permissiveSgFinding]
  · subst h
    obtain ⟨evs, _, rfl⟩ := check_root_mem env r hok f hf
    simp [rootUsageFinding]
  · subst h
    obtain ⟨us, _, u, _, rfl⟩ := check_mfa_mem env r hok f hf
    simp [noMfaFinding]
  · subst h
    obtain ⟨us, _, u, _, ks, _, k, _, rfl⟩ := check_keys_mem env r hok f hf
    simp [unusedKeyFinding]
  · subst h
    obtain ⟨insts, _, inst, _, rfl⟩ := check_rds_mem env r hok f hf
    simp [publicRdsFinding]
  · exact absurd h (by simp)

theorem filter_system_nil (l : List Finding) (h : ∀ f ∈ l, f.service ≠ "System") :
    l.filter (fun f => f.service == "System") = [] := by
  rw [List.filter_eq_nil_iff]
  intro f hfl
  simp [h f hfl]

/-- Every Finding in the merged collection has one of the three defined
severities. -/
theorem gdfl_severity (env : Env) (f : Finding) (hf : f ∈ getDetailedFindingsList env) :
    f.severity = "Critical" ∨ f.severity = "High" ∨ f.severity = "Medium" := by
  rcases gdfl_shape env f hf with ⟨n, rfl⟩ | ⟨n, rfl⟩ | ⟨sg, perm, rfl⟩ | ⟨n, rfl⟩ |
    ⟨u, rfl⟩ | ⟨u, k, rfl⟩ | ⟨i, rfl⟩ | ⟨n, e, rfl⟩
  · exact .inl rfl
  · exact .inr (.inr rfl)
  · by_cases hp : isCriticalPort perm.fromPort
    · exact .inl (by simp [permissiveSgFinding, hp])
    · exact .inr (.inl (by simp [permissiveSgFinding, hp]))
  · exact .inl rfl
  · exact .inr (.inl rfl)
  · exact .inr (.inr rfl)
  · exact .inl rfl
  · exact .inr (.inr rfl)

theorem count_severities (l : List Finding)
    (h : ∀ f ∈ l, f.severity = "Critical" ∨ f.severity = "High" ∨ f.severity = "Medium") :
    (l.filter fun f => f.severity == "Critical").length +
      (l.filter fun f => f.severity == "High").length +
      (l.filter fun f => f.severity == "Medium").length = l.length := by
  induction l with
  | nil => simp
  | cons a l ih =>
    have ha := h a (by simp)
    have hl := ih fun f hf => h f (by simp [hf])
    rcases ha with ha | ha | ha <;> simp [List.filter_cons, ha] <;> omega

theorem runCheckSafe_ok_filter (env : Env)
    (c : String × (Env → Except PyErr (List String × List Finding))) (hc : c ∈ checks)
    (r : List String × List Finding) (hok : c.2 env = .ok r) :
    (runCheckSafe env c).filter (fun f => f.service == "System") = [] := by
  unfold runCheckSafe
  rw [hok]
  exact filter_system_nil _ fun f hf => check_ok_not_system env c hc r hok f hf

/-! ### A check returns normally whenever its client constructs -/

theorem check_s3_isOk (env : Env) (h : env.s3Client = .ok ()) :
    ∃ r, check_s3_public_buckets env = .ok r := by
  unfold check_s3_public_buckets
  rw [h]
  dsimp only
  cases hl : env.listBuckets with
  | error e => exact ⟨_, rfl⟩
  | ok bs =>
    dsimp only
    rcases hri : runItems (fun b => s3PerBucket env b.name) bs with ⟨⟨ms, ds⟩, err⟩
    rw [hri]
    cases err <;> exact ⟨_, rfl⟩

theorem check_sg_isOk (env : Env) (h : env.ec2Client = .ok ()) :
    ∃ r, check_security_groups env = .ok r := by
  unfold check_security_groups
  rw [h]
  dsimp only
  cases hl : env.describeSecurityGroups with
  | error e => exact ⟨_, rfl⟩
  | ok gs => exact ⟨_, rfl⟩

theorem check_root_isOk (env : Env) (h : env.cloudtrailClient = .ok ()) :
    ∃ r, check_root_usage env = .ok r := by
  unfold check_root_usage
  rw [h]
  dsimp only
  cases hl : env.lookupEvents with
  | error e => exact ⟨_, rfl⟩
  | ok evs =>
    by_cases he : evs.isEmpty <;> simp [he]

theorem check_mfa_isOk (env : Env) (h : env.iamClient = .ok ()) :
    ∃ r, check_users_without_mfa env = .ok r := by
  unfold check_users_without_mfa
  rw [h]
  dsimp only
  cases hl : env.listUsers with
  | error e => exact ⟨_, rfl⟩
  | ok us =>
    dsimp only
    rcases hri : runItems (mfaUserStep env) us with ⟨⟨ms, ds⟩, err⟩
    cases err <;> exact ⟨_, rfl⟩

theorem check_keys_isOk (env : Env) (h : env.iamClient = .ok ()) :
    ∃ r, check_unused_access_keys env = .ok r := by
  unfold check_unused_access_keys
  rw [h]
  dsimp only
  cases hl : env.listUsers with
  | error e => exact ⟨_, rfl⟩
  | ok us =>
    dsimp only
    rcases hri : runItems (userKeysStep env) us with ⟨⟨ms, ds⟩, err⟩
    cases err <;> exact ⟨_, rfl⟩

theorem check_rds_isOk (env : Env) (h : env.rdsClient = .ok ()) :
    ∃ r, check_public_rds_instances env = .ok r := by
  unfold check_public_rds_instances
  rw [h]
  dsimp only
  cases hl : env.describeDbInstances with
  | error e => exact ⟨_, rfl⟩
  | ok insts => exact ⟨_, rfl⟩

/-! ### Claims -/

/-- C2: whatever the behavior of the underlying cloud-access calls,
`get_detailed_findings` never raises: it returns the merged collection,
and in the worst case (every client constructor failing) that collection
consists exactly of the six internal-failure Findings. -/
theorem claim2_get_detailed_findings_never_raises (env : Env) :
    get_detailed_findings env = .ok (getDetailedFindingsList env) ∧
    get_detailed_findings allClientsFailEnv =
      .ok (checks.map fun c =>
        checkErrorFinding c.1 (.otherError "Unable to locate credentials")) := by
  refine ⟨get_detailed_findings_never_raises env, ?_⟩
  rfl

/-- C6: the summary's `total_issues` is the collection length, the three
severity counters are the counts of the respective severities, the three
counters sum to the total on any collection this rule set produces, and
`services_affected` is the number of distinct service values. -/
theorem claim6_summary_stats (findings : List Finding) (now : String) (env : Env) :
    (summaryOf findings now).total_issues = findings.length ∧
    (summaryOf findings now).critical_issues =
      (findings.filter fun f => f.severity == "Critical").length ∧
    (summaryOf findings now).high_issues =
      (findings.filter fun f => f.severity == "High").length ∧
    (summaryOf findings now).medium_issues =
      (findings.filter fun f => f.severity == "Medium").length ∧
    (summaryOf findings now).services_affected =
      (findings.map fun f => f.service).toFinset.card ∧
    get_summary_stats env now = summaryOf (getDetailedFindingsList env) now ∧
    (get_summary_stats env now).critical_issues + (get_summary_stats env now).high_issues +
      (get_summary_stats env now).medium_issues = (get_summary_stats env now).total_issues := by
  refine ⟨rfl, rfl, rfl, rfl, ?_, rfl, ?_⟩
  · exact (List.card_toFinset _).symm
  · exact count_severities _ fun f hf => gdfl_severity env f hf

/-- C9: a check whose resource enumeration comes back empty contributes
zero Findings, and on the account with zero resources of every category
the merged collection is empty and the summary is all-zero. -/
theorem claim9_empty_enumeration (env : Env) (now : String) :
    (env.s3Client = .ok () → env.listBuckets = .ok [] →
      check_s3_public_buckets env = .ok ([], [])) ∧
    (env.ec2Client = .ok () → env.describeSecurityGroups = .ok [] →
      check_security_groups env = .ok ([], [])) ∧
    (env.cloudtrailClient = .ok () → env.lookupEvents = .ok [] →
      check_root_usage env = .ok ([], [])) ∧
    (env.iamClient = .ok () → env.listUsers = .ok [] →
      check_users_without_mfa env = .ok ([], [])) ∧
    (env.iamClient = .ok () → env.listUsers = .ok [] →
      check_unused_access_keys env = .ok ([], [])) ∧
    (env.rdsClient = .ok () → env.describeDbInstances = .ok [] →
      check_public_rds_instances env = .ok ([], [])) ∧
    getDetailedFindingsList emptyEnv = [] ∧
    get_summary_stats emptyEnv now =
      { total_issues := 0, critical_issues := 0, high_issues := 0, medium_issues := 0,
        services_affected := 0, scan_timestamp := now } := by
  refine ⟨?_, ?_, ?_, ?_, ?_, ?_, rfl, rfl⟩
  · intro h1 h2
    unfold check_s3_public_buckets
    rw [h1, h2]
    rfl
  · intro h1 h2
    unfold check_security_groups
    rw [h1, h2]
    rfl
  · intro h1 h2
    unfold check_root_usage
    rw [h1, h2]
    rfl
  · intro h1 h2
    unfold check_users_without_mfa
    rw [h1, h2]
    rfl
  · intro h1 h2
    unfold check_unused_access_keys
    rw [h1, h2]
    rfl
  · intro h1 h2
    unfold check_public_rds_instances
    rw [h1, h2]
    rfl

/-- Witness for C9 at the concrete empty account. -/
theorem claim9_empty_enumeration_witness :
    check_s3_public_buckets emptyEnv = .ok ([], []) ∧
    check_security_groups emptyEnv = .ok ([], []) ∧
    check_root_usage emptyEnv = .ok ([], []) ∧
    check_users_without_mfa emptyEnv = .ok ([], []) ∧
    check_unused_access_keys emptyEnv = .ok ([], []) ∧
    check_public_rds_instances emptyEnv = .ok ([], []) ∧
    getDetailedFindingsList emptyEnv = [] :=
  have h := claim9_empty_enumeration emptyEnv "2024-01-01T00:00:00"
  ⟨h.1 rfl rfl, h.2.1 rfl rfl, h.2.2.1 rfl rfl, h.2.2.2.1 rfl rfl,
    h.2.2.2.2.1 rfl rfl, h.2.2.2.2.2.1 rfl rfl, h.2.2.2.2.2.2.1⟩

/-- C4: an ingress rule whose source CIDR is `0.0.0.0/0` yields exactly
one Finding, Critical when `FromPort` is in the sensitive set
{22, 3389, 1433, 3306, 5432} and High otherwise; concretely, a rule
opening port 22 to the world yields one Critical Finding and a rule
opening port 8080 yields one High Finding. -/
theorem claim4_world_open_rule (sg : SecurityGroup) (perm : IpPermission) (rg : IpRange)
    (h : rg.cidrIp = "0.0.0.0/0") :
    sgRangeDetailed sg perm rg = [permissiveSgFinding sg perm] ∧
    (permissiveSgFinding sg perm).severity =
      (if isCriticalPort perm.fromPort then "Critical" else "High") ∧
    (isCriticalPort perm.fromPort = true ↔
      perm.fromPort ∈ [some (22 : Int), some 3389, some 1433, some 3306, some 5432]) ∧
    check_security_groups scenarioPort22Env =
      .ok (["Overly permissive SG: sg-0123 allows tcp on port 22 from 0.0.0.0/0"],
        [{ service := "EC2", issue_type := "Permissive Security Group",
           description := "Security group allows tcp traffic on port 22 from anywhere",
           severity := "Critical", resource := "sg-0123",
           recommendation := "Restrict source IP ranges to specific networks or addresses" }]) ∧
    check_security_groups scenarioPort8080Env =
      .ok (["Overly permissive SG: sg-0456 allows tcp on port 8080 from 0.0.0.0/0"],
        [{ service := "EC2", issue_type := "Permissive Security Group",
           description := "Security group allows tcp traffic on port 8080 from anywhere",
           severity := "High", resource := "sg-0456",
           recommendation := "Restrict source IP ranges to specific networks or addresses" }]) := by
  refine ⟨?_, rfl, ?_, ?_, ?_⟩
  · simp [sgRangeDetailed, h]
  · simp [isCriticalPort]
  · rfl
  · rfl

/-- Witness for C4 at a concrete world-open rule on port 22. -/
theorem claim4_world_open_rule_witness :
    sgRangeDetailed
        { groupId := "sg-0123",
          ipPermissions := [{ ipProtocol := some "tcp", fromPort := some 22, toPort := some 22,
                              ipRanges := [{ cidrIp := "0.0.0.0/0" }] }] }
        { ipProtocol := some "tcp", fromPort := some 22, toPort := some 22,
          ipRanges := [{ cidrIp := "0.0.0.0/0" }] }
        { cidrIp := "0.0.0.0/0" } =
      [permissiveSgFinding
        { groupId := "sg-0123",
          ipPermissions := [{ ipProtocol := some "tcp", fromPort := some 22, toPort := some 22,
                              ipRanges := [{ cidrIp := "0.0.0.0/0" }] }] }
        { ipProtocol := some "tcp", fromPort := some 22, toPort := some 22,
          ipRanges := [{ cidrIp := "0.0.0.0/0" }] }] :=
  (claim4_world_open_rule _ _ _ rfl).1

/-- C7: a storage container the code's public test flags (ACL grant to
any/any-authenticated principal, or a policy granting `Principal: *`)
yields exactly one Critical Finding; with exactly one such container and
no other issue, the whole scan returns that single Critical S3 Finding
and the summary is total 1, critical 1, high 0, medium 0, one service. -/
theorem claim7_public_bucket_critical (env : Env) (name now : String)
    (hpub : bucketIsPublic env name = .ok true) :
    s3PerBucket env name =
      .ok (["Public S3 Bucket: " ++ name], [publicBucketFinding name]) ∧
    (publicBucketFinding name).severity = "Critical" ∧
    (publicBucketFinding name).service = "S3" ∧
    (∀ grants policy, env.getBucketAcl name = .ok grants →
      env.getBucketPolicy name = .ok policy →
      bucketIsPublic env name = .ok (grants.any grantPublic || policyPublic policy)) ∧
    getDetailedFindingsList scenarioPublicBucketEnv = [publicBucketFinding "data-bucket"] ∧
    get_summary_stats scenarioPublicBucketEnv now =
      { total_issues := 1, critical_issues := 1, high_issues := 0, medium_issues := 0,
        services_affected := 1, scan_timestamp := now } := by
  refine ⟨?_, rfl, rfl, ?_, rfl, rfl⟩
  · unfold s3PerBucket
    rw [hpub]
  · intro grants policy hg hp
    unfold bucketIsPublic
    rw [hg, hp]
    rfl

/-- Witness for C7 at the concrete one-public-bucket account. -/
theorem claim7_public_bucket_critical_witness :
    s3PerBucket scenarioPublicBucketEnv "data-bucket" =
      .ok (["Public S3 Bucket: " ++ "data-bucket"], [publicBucketFinding "data-bucket"]) ∧
    getDetailedFindingsList scenarioPublicBucketEnv = [publicBucketFinding "data-bucket"] :=
  have h := claim7_public_bucket_critical scenarioPublicBucketEnv "data-bucket"
    "2024-01-01T00:00:00" (by rfl)
  ⟨h.1, h.2.2.2.2.1⟩

/-- C8: in the stale-credential check a failing last-used lookup makes
that key contribute nothing (no Finding of any kind) while the remaining
keys and users are still processed; concretely, with a user whose first
key's lookup fails and whose second key is unused, plus a second user
with a used key, the check returns exactly the second key's Finding. -/
theorem claim8_failed_lookup_skipped (env : Env) (un : String) (k : AccessKey) (e : PyErr)
    (hfail : env.getAccessKeyLastUsed k.accessKeyId = .error e) :
    keyStep env un k = ([], []) ∧
    (∀ u keys, env.listAccessKeys u = .ok keys →
      userKeysStep env { userName := u } =
        .ok (keys.flatMap fun k2 => (keyStep env u k2).1,
          keys.flatMap fun k2 => (keyStep env u k2).2)) ∧
    check_unused_access_keys scenarioUnusedKeyEnv =
      .ok (["Unused access key for user carol"], [unusedKeyFinding "carol" "AKIA1111IDLE"]) := by
  refine ⟨?_, ?_, rfl⟩
  · unfold keyStep
    rw [hfail]
  · intro u keys hk
    unfold userKeysStep
    rw [hk]

/-- Witness for C8 at the concrete failing-lookup account. -/
theorem claim8_failed_lookup_skipped_witness :
    keyStep scenarioUnusedKeyEnv "carol" { accessKeyId := "AKIA0000FAIL" } = ([], []) ∧
    check_unused_access_keys scenarioUnusedKeyEnv =
      .ok (["Unused access key for user carol"], [unusedKeyFinding "carol" "AKIA1111IDLE"]) :=
  have h := claim8_failed_lookup_skipped scenarioUnusedKeyEnv "carol"
    { accessKeyId := "AKIA0000FAIL" } (.otherError "lookup failed") (by rfl)
  ⟨h.1, h.2.2⟩

/-- C5 counterexample: the claim quantifies over every check, but only the
S3 check downgrades access-denied errors.  In the MFA check an
access-denied failure on the first user's device listing aborts the whole
check: the result carries no `Access Denied` Finding at all and the second
user (who has no MFA device) is never examined. -/
theorem claim5_counterexample :
    check_users_without_mfa cexMfaDeniedEnv =
      .ok (["Error checking MFA status: An error occurred (AccessDenied): denied"],
        ([] : List Finding)) := by
  rfl

/-- C5 (amended to the S3 check, the one the cited code implements): an
access-denied failure on one bucket's ACL lookup becomes exactly one
Medium `Access Denied` Finding for that bucket, the check does not abort,
and the remaining buckets are still processed. -/
theorem claim5_s3_access_denied (env : Env) (pre post : List Bucket) (name m : String)
    (hclient : env.s3Client = .ok ())
    (hl : env.listBuckets = .ok (pre ++ { name := name } :: post))
    (hacl : env.getBucketAcl name = .error (.clientError "AccessDenied" m))
    (hpre : ∀ b ∈ pre, ∃ r, s3PerBucket env b.name = .ok r) :
    s3PerBucket env name =
      .ok (["Access Denied: Cannot check ACL for bucket " ++ name],
        [s3AccessDeniedFinding name]) ∧
    (s3AccessDeniedFinding name).severity = "Medium" ∧
    (s3AccessDeniedFinding name).issue_type = "Access Denied" ∧
    ∃ msgs, check_s3_public_buckets env = .ok (msgs,
      pre.flatMap (stepDet fun b => s3PerBucket env b.name) ++
        s3AccessDeniedFinding name ::
          (runItems (fun b => s3PerBucket env b.name) post).1.2) := by
  have hstep : s3PerBucket env name =
      .ok (["Access Denied: Cannot check ACL for bucket " ++ name],
        [s3AccessDeniedFinding name]) := by
    unfold s3PerBucket bucketIsPublic
    rw [hacl]
    rfl
  refine ⟨hstep, rfl, rfl, ?_⟩
  unfold check_s3_public_buckets
  rw [hclient]
  dsimp only
  rw [hl]
  dsimp only
  rcases hrp : runItems (fun b => s3PerBucket env b.name) post with ⟨⟨pm, pd⟩, perr⟩
  rw [hrp]
  dsimp only
  rw [runItems_append (fun b => s3PerBucket env b.name) pre ({ name := name } :: post) hpre]
  rw [show runItems (fun b => s3PerBucket env b.name) ({ name := name } :: post) =
      ((("Access Denied: Cannot check ACL for bucket " ++ name) :: pm,
        s3AccessDeniedFinding name :: pd), perr) from by
    rw [runItems]
    dsimp only
    rw [hstep, hrp]
    rfl]
  dsimp only [wrapCheck]
  cases perr
  · exact ⟨_, rfl⟩
  · exact ⟨_, rfl⟩

/-- Witness for the amended C5 at the concrete denied-bucket account. -/
theorem claim5_s3_access_denied_witness :
    s3PerBucket s3DeniedBucketEnv "secret" =
      .ok (["Access Denied: Cannot check ACL for bucket " ++ "secret"],
        [s3AccessDeniedFinding "secret"]) :=
  (claim5_s3_access_denied s3DeniedBucketEnv [{ name := "open-books" }] [] "secret" "denied"
    rfl rfl rfl (by
      intro b hb
      simp only [List.mem_singleton] at hb
      subst hb
      exact ⟨([], []), rfl⟩)).1

/-- C3 counterexample: `resource` is copied verbatim from the cloud
state, so a publicly readable bucket whose name is the empty string
produces a Finding whose `resource` is empty. -/
theorem claim3_counterexample :
    publicBucketFinding "" ∈ getDetailedFindingsList cexEmptyNameEnv ∧
    (publicBucketFinding "").resource = "" := by
  constructor
  · show publicBucketFinding "" ∈ getDetailedFindingsList cexEmptyNameEnv
    rw [show getDetailedFindingsList cexEmptyNameEnv = [publicBucketFinding ""] from rfl]
    simp
  · rfl

/-- C3 (amended): every element of the merged collection has severity in
{Critical, High, Medium} and a non-empty recommendation unconditionally;
its `resource` is non-empty provided the resource identifiers the cloud
returns (bucket names, group ids, user names, database identifiers) are
non-empty, since the code copies those identifiers into `resource`. -/
theorem claim3_finding_invariants (env : Env) (f : Finding)
    (hf : f ∈ getDetailedFindingsList env)
    (hbuckets : ∀ bs, env.listBuckets = .ok bs → ∀ b ∈ bs, b.name ≠ "")
    (hsgs : ∀ gs, env.describeSecurityGroups = .ok gs → ∀ g ∈ gs, g.groupId ≠ "")
    (husers : ∀ us, env.listUsers = .ok us → ∀ u ∈ us, u.userName ≠ "")
    (hdbs : ∀ ds, env.describeDbInstances = .ok ds → ∀ d ∈ ds, d.dbInstanceIdentifier ≠ "") :
    (f.severity = "Critical" ∨ f.severity = "High" ∨ f.severity = "Medium") ∧
    f.resource ≠ "" ∧ f.recommendation ≠ "" := by
  refine ⟨gdfl_severity env f hf, ?_, ?_⟩
  · obtain ⟨c, hc, hrc⟩ := mem_getDetailedFindingsList env f hf
    rcases runCheckSafe_cases env c f hrc with ⟨r, hok, hmem⟩ | ⟨e, herr, hfe⟩
    · simp only [checks, List.mem_cons, List.mem_singleton] at hc
      rcases hc with h | h | h | h | h | h | h
      · subst h
        obtain ⟨bs, hbs, b, hb, hsh⟩ := check_s3_mem env r hok f hmem
        have hname := hbuckets bs hbs b hb
        rcases hsh with rfl | rfl <;> exact hname
      · subst h
        obtain ⟨gs, hgs, sg, hsg, perm, _, rfl⟩ := check_sg_mem env r hok f hmem
        exact hsgs gs hgs sg hsg
      · subst h
        obtain ⟨evs, _, rfl⟩ := check_root_mem env r hok f hmem
        simp [rootUsageFinding]
      · subst h
        obtain ⟨us, hus, u, hu, rfl⟩ := check_mfa_mem env r hok f hmem
        exact husers us hus u hu
      · subst h
        obtain ⟨us, _, u, _, ks, _, k, _, rfl⟩ := check_keys_mem env r hok f hmem
        intro hcon
        have := congrArg String.length hcon
        simp [unusedKeyFinding, String.length_append] at this
        exact absurd this.2 (by decide)
      · subst h
        obtain ⟨insts, hins, inst, hinst, rfl⟩ := check_rds_mem env r hok f hmem
        exact hdbs insts hins inst hinst
      · exact absurd h (by simp)
    · subst hfe
      simp [checkErrorFinding]
  · rcases gdfl_shape env f hf with ⟨n, rfl⟩ | ⟨n, rfl⟩ | ⟨sg, perm, rfl⟩ | ⟨n, rfl⟩ |
      ⟨u, rfl⟩ | ⟨u, k, rfl⟩ | ⟨i, rfl⟩ | ⟨n, e, rfl⟩ <;>
      simp [publicBucketFinding, s3AccessDeniedFinding, permissiveSgFinding, rootUsageFinding,
        noMfaFinding, unusedKeyFinding, publicRdsFinding, checkErrorFinding]

/-- Witness for the amended C3 at the one-public-bucket account. -/
theorem claim3_finding_invariants_witness :
    ((publicBucketFinding "data-bucket").severity = "Critical" ∨
      (publicBucketFinding "data-bucket").severity = "High" ∨
      (publicBucketFinding "data-bucket").severity = "Medium") ∧
    (publicBucketFinding "data-bucket").resource ≠ "" ∧
    (publicBucketFinding "data-bucket").recommendation ≠ "" :=
  claim3_finding_invariants scenarioPublicBucketEnv (publicBucketFinding "data-bucket")
    (by rw [show getDetailedFindingsList scenarioPublicBucketEnv =
        [publicBucketFinding "data-bucket"] from rfl]; simp)
    (by intro bs hbs b hb
        injection hbs with h
        subst h
        simp only [List.mem_singleton] at hb
        subst hb
        decide)
    (by intro gs hgs g hg
        injection hgs with h
        subst h
        simp at hg)
    (by intro us hus u hu
        injection hus with h
        subst h
        simp at hu)
    (by intro ds hds d hd
        injection hds with h
        subst h
        simp at hd)

/-- C10 counterexample: a non-access-denied `ClientError` on the second
bucket is re-raised into the S3 check's catch-all, yet the public-bucket
Finding already collected for the first bucket is returned — the check
does not come back with zero detailed Findings. -/
theorem claim10_counterexample :
    check_s3_public_buckets cexS3MidErrorEnv =
      .ok (["Public S3 Bucket: pub",
            "Error checking S3 buckets: An error occurred (Throttling): rate exceeded"],
        [publicBucketFinding "pub"]) ∧
    [publicBucketFinding "pub"] ≠ ([] : List Finding) := by
  exact ⟨rfl, by simp⟩

/-- C10 (amended): every exception raised inside a check's `try` body is
caught by that check's catch-all, which returns normally with the
detailed Findings accumulated before the exception (possibly none, but
not necessarily none); an exception escapes a check — and so triggers the
Runner's System `Check Error` Finding — only when it is raised before the
`try` block, i.e. during client construction. -/
theorem claim10_catchall_scope (env : Env) :
    (env.s3Client = .ok () → ∃ r, check_s3_public_buckets env = .ok r) ∧
    (env.ec2Client = .ok () → ∃ r, check_security_groups env = .ok r) ∧
    (env.cloudtrailClient = .ok () → ∃ r, check_root_usage env = .ok r) ∧
    (env.iamClient = .ok () → ∃ r, check_users_without_mfa env = .ok r) ∧
    (env.iamClient = .ok () → ∃ r, check_unused_access_keys env = .ok r) ∧
    (env.rdsClient = .ok () → ∃ r, check_public_rds_instances env = .ok r) ∧
    (∀ e, env.s3Client = .error e → check_s3_public_buckets env = .error e) ∧
    (∀ e, env.ec2Client = .error e → check_security_groups env = .error e) ∧
    (∀ e, env.cloudtrailClient = .error e → check_root_usage env = .error e) ∧
    (∀ e, env.iamClient = .error e →
      check_users_without_mfa env = .error e ∧ check_unused_access_keys env = .error e) ∧
    (∀ e, env.rdsClient = .error e → check_public_rds_instances env = .error e) ∧
    check_s3_public_buckets cexS3MidErrorEnv =
      .ok (["Public S3 Bucket: pub",
            "Error checking S3 buckets: An error occurred (Throttling): rate exceeded"],
        [publicBucketFinding "pub"]) := by
  refine ⟨check_s3_isOk env, check_sg_isOk env, check_root_isOk env, check_mfa_isOk env,
    check_keys_isOk env, check_rds_isOk env, ?_, ?_, ?_, ?_, ?_, rfl⟩
  · intro e he
    unfold check_s3_public_buckets
    rw [he]
  · intro e he
    unfold check_security_groups
    rw [he]
  · intro e he
    unfold check_root_usage
    rw [he]
  · intro e he
    constructor
    · unfold check_users_without_mfa
      rw [he]
    · unfold check_unused_access_keys
      rw [he]
  · intro e he
    unfold check_public_rds_instances
    rw [he]

/-- Witness for the amended C10 at the empty account. -/
theorem claim10_catchall_scope_witness :
    (∃ r, check_s3_public_buckets emptyEnv = .ok r) ∧
    (∃ r, check_public_rds_instances emptyEnv = .ok r) :=
  have h := claim10_catchall_scope emptyEnv
  ⟨h.1 rfl, h.2.2.2.2.2.1 rfl⟩

/-- C1: if the check at position `i` of the Runner's fixed list raises,
the merged collection is the other checks' findings with exactly one
synthetic System/Check Error Finding (Medium, resource "Security
Scanner", description naming the failed check and the error detail) in
that check's place; when the other checks succeed it is the only
System-tagged element of the whole collection. -/
theorem claim1_runner_isolation (env : Env) (i : Fin checks.length) (e : PyErr)
    (herr : (checks.get i).2 env = .error e)
    (hok : ∀ j : Fin checks.length, j ≠ i → ∃ r, (checks.get j).2 env = .ok r) :
    getDetailedFindingsList env =
      ((checks.take i.val).map (runCheckSafe env)).flatten ++
        checkErrorFinding (checks.get i).1 e ::
          ((checks.drop (i.val + 1)).map (runCheckSafe env)).flatten ∧
    (getDetailedFindingsList env).filter (fun f => f.service == "System") =
      [checkErrorFinding (checks.get i).1 e] ∧
    (checkErrorFinding (checks.get i).1 e).service = "System" ∧
    (checkErrorFinding (checks.get i).1 e).issue_type = "Check Error" ∧
    (checkErrorFinding (checks.get i).1 e).severity = "Medium" ∧
    (checkErrorFinding (checks.get i).1 e).resource = "Security Scanner" ∧
    (checkErrorFinding (checks.get i).1 e).description =
      "Error running " ++ (checks.get i).1 ++ ": " ++ pyStr e := by
  fin_cases i
  · -- failing check: check_s3_public_buckets
    have herr2 : check_s3_public_buckets env = .error e := herr
    obtain ⟨r1, hr1⟩ := hok ⟨1, by decide⟩ (by decide)
    obtain ⟨r2, hr2⟩ := hok ⟨2, by decide⟩ (by decide)
    obtain ⟨r3, hr3⟩ := hok ⟨3, by decide⟩ (by decide)
    obtain ⟨r4, hr4⟩ := hok ⟨4, by decide⟩ (by decide)
    obtain ⟨r5, hr5⟩ := hok ⟨5, by decide⟩ (by decide)
    have hr12 : check_security_groups env = .ok r1 := hr1
    have hr22 : check_root_usage env = .ok r2 := hr2
    have hr32 : check_users_without_mfa env = .ok r3 := hr3
    have hr42 : check_unused_access_keys env = .ok r4 := hr4
    have hr52 : check_public_rds_instances env = .ok r5 := hr5
    have e0 : runCheckSafe env ("check_s3_public_buckets", check_s3_public_buckets) =
        [checkErrorFinding "check_s3_public_buckets" e] := by
      unfold runCheckSafe
      dsimp only
      rw [herr2]
    have o1 : runCheckSafe env ("check_security_groups", check_security_groups) = r1.2 := by
      unfold runCheckSafe
      dsimp only
      rw [hr12]
    have o2 : runCheckSafe env ("check_root_usage", check_root_usage) = r2.2 := by
      unfold runCheckSafe
      dsimp only
      rw [hr22]
    have o3 : runCheckSafe env ("check_users_without_mfa", check_users_without_mfa) = r3.2 := by
      unfold runCheckSafe
      dsimp only
      rw [hr32]
    have o4 : runCheckSafe env ("check_unused_access_keys", check_unused_access_keys) = r4.2 := by
      unfold runCheckSafe
      dsimp only
      rw [hr42]
    have o5 : runCheckSafe env ("check_public_rds_instances", check_public_rds_instances) = r5.2 := by
      unfold runCheckSafe
      dsimp only
      rw [hr52]
    have f1 : r1.2.filter (fun f => f.service == "System") = [] :=
      filter_system_nil _ fun f hf =>
        check_ok_not_system env ("check_security_groups", check_security_groups) (by simp [checks]) r1 hr12 f hf
    have f2 : r2.2.filter (fun f => f.service == "System") = [] :=
      filter_system_nil _ fun f hf =>
        check_ok_not_system env ("check_root_usage", check_root_usage) (by simp [checks]) r2 hr22 f hf
    have f3 : r3.2.filter (fun f => f.service == "System") = [] :=
      filter_system_nil _ fun f hf =>
        check_ok_not_system env ("check_users_without_mfa", check_users_without_mfa) (by simp [checks]) r3 hr32 f hf
    have f4 : r4.2.filter (fun f => f.service == "System") = [] :=
      filter_system_nil _ fun f hf =>
        check_ok_not_system env ("check_unused_access_keys", check_unused_access_keys) (by simp [checks]) r4 hr42 f hf
    have f5 : r5.2.filter (fun f => f.service == "System") = [] :=
      filter_system_nil _ fun f hf =>
        check_ok_not_system env ("check_public_rds_instances", check_public_rds_instances) (by simp [checks]) r5 hr52 f hf
    refine ⟨?_, ?_, rfl, rfl, rfl, rfl, rfl⟩
    · show (checks.map (runCheckSafe env)).flatten = _
      simp only [checks, List.map_cons, List.map_nil, List.flatten_cons,
        List.flatten_nil, e0, o1, o2, o3, o4, o5, List.take, List.drop]
      simp
      try rfl
    · show ((checks.map (runCheckSafe env)).flatten).filter _ = _
      simp only [checks, List.map_cons, List.map_nil, List.flatten_cons,
        List.flatten_nil, e0, o1, o2, o3, o4, o5, List.filter_append, f1, f2, f3, f4, f5]
      simp [checkErrorFinding]
      try rfl
  · -- failing check: check_security_groups
    have herr2 : check_security_groups env = .error e := herr
    obtain ⟨r1, hr1⟩ := hok ⟨0, by decide⟩ (by decide)
    obtain ⟨r2, hr2⟩ := hok ⟨2, by decide⟩ (by decide)
    obtain ⟨r3, hr3⟩ := hok ⟨3, by decide⟩ (by decide)
    obtain ⟨r4, hr4⟩ := hok ⟨4, by decide⟩ (by decide)
    obtain ⟨r5, hr5⟩ := hok ⟨5, by decide⟩ (by decide)
    have hr12 : check_s3_public_buckets env = .ok r1 := hr1
    have hr22 : check_root_usage env = .ok r2 := hr2
    have hr32 : check_users_without_mfa env = .ok r3 := hr3
    have hr42 : check_unused_access_keys env = .ok r4 := hr4
    have hr52 : check_public_rds_instances env = .ok r5 := hr5
    have e0 : runCheckSafe env ("check_security_groups", check_security_groups) =
        [checkErrorFinding "check_security_groups" e] := by
      unfold runCheckSafe
      dsimp only
      rw [herr2]
    have o1 : runCheckSafe env ("check_s3_public_buckets", check_s3_public_buckets) = r1.2 := by
      unfold runCheckSafe
      dsimp only
      rw [hr12]
    have o2 : runCheckSafe env ("check_root_usage", check_root_usage) = r2.2 := by
      unfold runCheckSafe
      dsimp only
      rw [hr22]
    have o3 : runCheckSafe env ("check_users_without_mfa", check_users_without_mfa) = r3.2 := by
      unfold runCheckSafe
      dsimp only
      rw [hr32]
    have o4 : runCheckSafe env ("check_unused_access_keys", check_unused_access_keys) = r4.2 := by
      unfold runCheckSafe
      dsimp only
      rw [hr42]
    have o5 : runCheckSafe env ("check_public_rds_instances", check_public_rds_instances) = r5.2 := by
      unfold runCheckSafe
      dsimp only
      rw [hr52]
    have f1 : r1.2.filter (fun f => f.service == "System") = [] :=
      filter_system_nil _ fun f hf =>
        check_ok_not_system env ("check_s3_public_buckets", check_s3_public_buckets) (by simp [checks]) r1 hr12 f hf
    have f2 : r2.2.filter (fun f => f.service == "System") = [] :=
      filter_system_nil _ fun f hf =>
        check_ok_not_system env ("check_root_usage", check_root_usage) (by simp [checks]) r2 hr22 f hf
    have f3 : r3.2.filter (fun f => f.service == "System") = [] :=
      filter_system_nil _ fun f hf =>
        check_ok_not_system env ("check_users_without_mfa", check_users_without_mfa) (by simp [checks]) r3 hr32 f hf
    have f4 : r4.2.filter (fun f => f.service == "System") = [] :=
      filter_system_nil _ fun f hf =>
        check_ok_not_system env ("check_unused_access_keys", check_unused_access_keys) (by simp [checks]) r4 hr42 f hf
    have f5 : r5.2.filter (fun f => f.service == "System") = [] :=
      filter_system_nil _ fun f hf =>
        check_ok_not_system env ("check_public_rds_instances", check_public_rds_instances) (by simp [checks]) r5 hr52 f hf
    refine ⟨?_, ?_, rfl, rfl, rfl, rfl, rfl⟩
    · show (checks.map (runCheckSafe env)).flatten = _
      simp only [checks, List.map_cons, List.map_nil, List.flatten_cons,
        List.flatten_nil, e0, o1, o2, o3, o4, o5, List.take, List.drop]
      simp
      try rfl
    · show ((checks.map (runCheckSafe env)).flatten).filter _ = _
      simp only [checks, List.map_cons, List.map_nil, List.flatten_cons,
        List.flatten_nil, e0, o1, o2, o3, o4, o5, List.filter_append, f1, f2, f3, f4, f5]
      simp [checkErrorFinding]
      try rfl
  · -- failing check: check_root_usage
    have herr2 : check_root_usage env = .error e := herr
    obtain ⟨r1, hr1⟩ := hok ⟨0, by decide⟩ (by decide)
    obtain ⟨r2, hr2⟩ := hok ⟨1, by decide⟩ (by decide)
    obtain ⟨r3, hr3⟩ := hok ⟨3, by decide⟩ (by decide)
    obtain ⟨r4, hr4⟩ := hok ⟨4, by decide⟩ (by decide)
    obtain ⟨r5, hr5⟩ := hok ⟨5, by decide⟩ (by decide)
    have hr12 : check_s3_public_buckets env = .ok r1 := hr1
    have hr22 : check_security_groups env = .ok r2 := hr2
    have hr32 : check_users_without_mfa env = .ok r3 := hr3
    have hr42 : check_unused_access_keys env = .ok r4 := hr4
    have hr52 : check_public_rds_instances env = .ok r5 := hr5
    have e0 : runCheckSafe env ("check_root_usage", check_root_usage) =
        [checkErrorFinding "check_root_usage" e] := by
      unfold runCheckSafe
      dsimp only
      rw [herr2]
    have o1 : runCheckSafe env ("check_s3_public_buckets", check_s3_public_buckets) = r1.2 := by
      unfold runCheckSafe
      dsimp only
      rw [hr12]
    have o2 : runCheckSafe env ("check_security_groups", check_security_groups) = r2.2 := by
      unfold runCheckSafe
      dsimp only
      rw [hr22]
    have o3 : runCheckSafe env ("check_users_without_mfa", check_users_without_mfa) = r3.2 := by
      unfold runCheckSafe
      dsimp only
      rw [hr32]
    have o4 : runCheckSafe env ("check_unused_access_keys", check_unused_access_keys) = r4.2 := by
      unfold runCheckSafe
      dsimp only
      rw [hr42]
    have o5 : runCheckSafe env ("check_public_rds_instances", check_public_rds_instances) = r5.2 := by
      unfold runCheckSafe
      dsimp only
      rw [hr52]
    have f1 : r1.2.filter (fun f => f.service == "System") = [] :=
      filter_system_nil _ fun f hf =>
        check_ok_not_system env ("check_s3_public_buckets", check_s3_public_buckets) (by simp [checks]) r1 hr12 f hf
    have f2 : r2.2.filter (fun f => f.service == "System") = [] :=
      filter_system_nil _ fun f hf =>
        check_ok_not_system env ("check_security_groups", check_security_groups) (by simp [checks]) r2 hr22 f hf
    have f3 : r3.2.filter (fun f => f.service == "System") = [] :=
      filter_system_nil _ fun f hf =>
        check_ok_not_system env ("check_users_without_mfa", check_users_without_mfa) (by simp [checks]) r3 hr32 f hf
    have f4 : r4.2.filter (fun f => f.service == "System") = [] :=
      filter_system_nil _ fun f hf =>
        check_ok_not_system env ("check_unused_access_keys", check_unused_access_keys) (by simp [checks]) r4 hr42 f hf
    have f5 : r5.2.filter (fun f => f.service == "System") = [] :=
      filter_system_nil _ fun f hf =>
        check_ok_not_system env ("check_public_rds_instances", check_public_rds_instances) (by simp [checks]) r5 hr52 f hf
    refine ⟨?_, ?_, rfl, rfl, rfl, rfl, rfl⟩
    · show (checks.map (runCheckSafe env)).flatten = _
      simp only [checks, List.map_cons, List.map_nil, List.flatten_cons,
        List.flatten_nil, e0, o1, o2, o3, o4, o5, List.take, List.drop]
      simp
      try rfl
    · show ((checks.map (runCheckSafe env)).flatten).filter _ = _
      simp only [checks, List.map_cons, List.map_nil, List.flatten_cons,
        List.flatten_nil, e0, o1, o2, o3, o4, o5, List.filter_append, f1, f2, f3, f4, f5]
      simp [checkErrorFinding]
      try rfl
  · -- failing check: check_users_without_mfa
    have herr2 : check_users_without_mfa env = .error e := herr
    obtain ⟨r1, hr1⟩ := hok ⟨0, by decide⟩ (by decide)
    obtain ⟨r2, hr2⟩ := hok ⟨1, by decide⟩ (by decide)
    obtain ⟨r3, hr3⟩ := hok ⟨2, by decide⟩ (by decide)
    obtain ⟨r4, hr4⟩ := hok ⟨4, by decide⟩ (by decide)
    obtain ⟨r5, hr5⟩ := hok ⟨5, by decide⟩ (by decide)
    have hr12 : check_s3_public_buckets env = .ok r1 := hr1
    have hr22 : check_security_groups env = .ok r2 := hr2
    have hr32 : check_root_usage env = .ok r3 := hr3
    have hr42 : check_unused_access_keys env = .ok r4 := hr4
    have hr52 : check_public_rds_instances env = .ok r5 := hr5
    have e0 : runCheckSafe env ("check_users_without_mfa", check_users_without_mfa) =
        [checkErrorFinding "check_users_without_mfa" e] := by
      unfold runCheckSafe
      dsimp only
      rw [herr2]
    have o1 : runCheckSafe env ("check_s3_public_buckets", check_s3_public_buckets) = r1.2 := by
      unfold runCheckSafe
      dsimp only
      rw [hr12]
    have o2 : runCheckSafe env ("check_security_groups", check_security_groups) = r2.2 := by
      unfold runCheckSafe
      dsimp only
      rw [hr22]
    have o3 : runCheckSafe env ("check_root_usage", check_root_usage) = r3.2 := by
      unfold runCheckSafe
      dsimp only
      rw [hr32]
    have o4 : runCheckSafe env ("check_unused_access_keys", check_unused_access_keys) = r4.2 := by
      unfold runCheckSafe
      dsimp only
      rw [hr42]
    have o5 : runCheckSafe env ("check_public_rds_instances", check_public_rds_instances) = r5.2 := by
      unfold runCheckSafe
      dsimp only
      rw [hr52]
    have f1 : r1.2.filter (fun f => f.service == "System") = [] :=
      filter_system_nil _ fun f hf =>
        check_ok_not_system env ("check_s3_public_buckets", check_s3_public_buckets) (by simp [checks]) r1 hr12 f hf
    have f2 : r2.2.filter (fun f => f.service == "System") = [] :=
      filter_system_nil _ fun f hf =>
        check_ok_not_system env ("check_security_groups", check_security_groups) (by simp [checks]) r2 hr22 f hf
    have f3 : r3.2.filter (fun f => f.service == "System") = [] :=
      filter_system_nil _ fun f hf =>
        check_ok_not_system env ("check_root_usage", check_root_usage) (by simp [checks]) r3 hr32 f hf
    have f4 : r4.2.filter (fun f => f.service == "System") = [] :=
      filter_system_nil _ fun f hf =>
        check_ok_not_system env ("check_unused_access_keys", check_unused_access_keys) (by simp [checks]) r4 hr42 f hf
    have f5 : r5.2.filter (fun f => f.service == "System") = [] :=
      filter_system_nil _ fun f hf =>
        check_ok_not_system env ("check_public_rds_instances", check_public_rds_instances) (by simp [checks]) r5 hr52 f hf
    refine ⟨?_, ?_, rfl, rfl, rfl, rfl, rfl⟩
    · show (checks.map (runCheckSafe env)).flatten = _
      simp only [checks, List.map_cons, List.map_nil, List.flatten_cons,
        List.flatten_nil, e0, o1, o2, o3, o4, o5, List.take, List.drop]
      simp
      try rfl
    · show ((checks.map (runCheckSafe env)).flatten).filter _ = _
      simp only [checks, List.map_cons, List.map_nil, List.flatten_cons,
        List.flatten_nil, e0, o1, o2, o3, o4, o5, List.filter_append, f1, f2, f3, f4, f5]
      simp [checkErrorFinding]
      try rfl
  · -- failing check: check_unused_access_keys
    have herr2 : check_unused_access_keys env = .error e := herr
    obtain ⟨r1, hr1⟩ := hok ⟨0, by decide⟩ (by decide)
    obtain ⟨r2, hr2⟩ := hok ⟨1, by decide⟩ (by decide)
    obtain ⟨r3, hr3⟩ := hok ⟨2, by decide⟩ (by decide)
    obtain ⟨r4, hr4⟩ := hok ⟨3, by decide⟩ (by decide)
    obtain ⟨r5, hr5⟩ := hok ⟨5, by decide⟩ (by decide)
    have hr12 : check_s3_public_buckets env = .ok r1 := hr1
    have hr22 : check_security_groups env = .ok r2 := hr2
    have hr32 : check_root_usage env = .ok r3 := hr3
    have hr42 : check_users_without_mfa env = .ok r4 := hr4
    have hr52 : check_public_rds_instances env = .ok r5 := hr5
    have e0 : runCheckSafe env ("check_unused_access_keys", check_unused_access_keys) =
        [checkErrorFinding "check_unused_access_keys" e] := by
      unfold runCheckSafe
      dsimp only
      rw [herr2]
    have o1 : runCheckSafe env ("check_s3_public_buckets", check_s3_public_buckets) = r1.2 := by
      unfold runCheckSafe
      dsimp only
      rw [hr12]
    have o2 : runCheckSafe env ("check_security_groups", check_security_groups) = r2.2 := by
      unfold runCheckSafe
      dsimp only
      rw [hr22]
    have o3 : runCheckSafe env ("check_root_usage", check_root_usage) = r3.2 := by
      unfold runCheckSafe
      dsimp only
      rw [hr32]
    have o4 : runCheckSafe env ("check_users_without_mfa", check_users_without_mfa) = r4.2 := by
      unfold runCheckSafe
      dsimp only
      rw [hr42]
    have o5 : runCheckSafe env ("check_public_rds_instances", check_public_rds_instances) = r5.2 := by
      unfold runCheckSafe
      dsimp only
      rw [hr52]
    have f1 : r1.2.filter (fun f => f.service == "System") = [] :=
      filter_system_nil _ fun f hf =>
        check_ok_not_system env ("check_s3_public_buckets", check_s3_public_buckets) (by simp [checks]) r1 hr12 f hf
    have f2 : r2.2.filter (fun f => f.service == "System") = [] :=
      filter_system_nil _ fun f hf =>
        check_ok_not_system env ("check_security_groups", check_security_groups) (by simp [checks]) r2 hr22 f hf
    have f3 : r3.2.filter (fun f => f.service == "System") = [] :=
      filter_system_nil _ fun f hf =>
        check_ok_not_system env ("check_root_usage", check_root_usage) (by simp [checks]) r3 hr32 f hf
    have f4 : r4.2.filter (fun f => f.service == "System") = [] :=
      filter_system_nil _ fun f hf =>
        check_ok_not_system env ("check_users_without_mfa", check_users_without_mfa) (by simp [checks]) r4 hr42 f hf
    have f5 : r5.2.filter (fun f => f.service == "System") = [] :=
      filter_system_nil _ fun f hf =>
        check_ok_not_system env ("check_public_rds_instances", check_public_rds_instances) (by simp [checks]) r5 hr52 f hf
    refine ⟨?_, ?_, rfl, rfl, rfl, rfl, rfl⟩
    · show (checks.map (runCheckSafe env)).flatten = _
      simp only [checks, List.map_cons, List.map_nil, List.flatten_cons,
        List.flatten_nil, e0, o1, o2, o3, o4, o5, List.take, List.drop]
      simp
      try rfl
    · show ((checks.map (runCheckSafe env)).flatten).filter _ = _
      simp only [checks, List.map_cons, List.map_nil, List.flatten_cons,
        List.flatten_nil, e0, o1, o2, o3, o4, o5, List.filter_append, f1, f2, f3, f4, f5]
      simp [checkErrorFinding]
      try rfl
  · -- failing check: check_public_rds_instances
    have herr2 : check_public_rds_instances env = .error e := herr
    obtain ⟨r1, hr1⟩ := hok ⟨0, by decide⟩ (by decide)
    obtain ⟨r2, hr2⟩ := hok ⟨1, by decide⟩ (by decide)
    obtain ⟨r3, hr3⟩ := hok ⟨2, by decide⟩ (by decide)
    obtain ⟨r4, hr4⟩ := hok ⟨3, by decide⟩ (by decide)
    obtain ⟨r5, hr5⟩ := hok ⟨4, by decide⟩ (by decide)
    have hr12 : check_s3_public_buckets env = .ok r1 := hr1
    have hr22 : check_security_groups env = .ok r2 := hr2
    have hr32 : check_root_usage env = .ok r3 := hr3
    have hr42 : check_users_without_mfa env = .ok r4 := hr4
    have hr52 : check_unused_access_keys env = .ok r5 := hr5
    have e0 : runCheckSafe env ("check_public_rds_instances", check_public_rds_instances) =
        [checkErrorFinding "check_public_rds_instances" e] := by
      unfold runCheckSafe
      dsimp only
      rw [herr2]
    have o1 : runCheckSafe env ("check_s3_public_buckets", check_s3_public_buckets) = r1.2 := by
      unfold runCheckSafe
      dsimp only
      rw [hr12]
    have o2 : runCheckSafe env ("check_security_groups", check_security_groups) = r2.2 := by
      unfold runCheckSafe
      dsimp only
      rw [hr22]
    have o3 : runCheckSafe env ("check_root_usage", check_root_usage) = r3.2 := by
      unfold runCheckSafe
      dsimp only
      rw [hr32]
    have o4 : runCheckSafe env ("check_users_without_mfa", check_users_without_mfa) = r4.2 := by
      unfold runCheckSafe
      dsimp only
      rw [hr42]
    have o5 : runCheckSafe env ("check_unused_access_keys", check_unused_access_keys) = r5.2 := by
      unfold runCheckSafe
      dsimp only
      rw [hr52]
    have f1 : r1.2.filter (fun f => f.service == "System") = [] :=
      filter_system_nil _ fun f hf =>
        check_ok_not_system env ("check_s3_public_buckets", check_s3_public_buckets) (by simp [checks]) r1 hr12 f hf
    have f2 : r2.2.filter (fun f => f.service == "System") = [] :=
      filter_system_nil _ fun f hf =>
        check_ok_not_system env ("check_security_groups", check_security_groups) (by simp [checks]) r2 hr22 f hf
    have f3 : r3.2.filter (fun f => f.service == "System") = [] :=
      filter_system_nil _ fun f hf =>
        check_ok_not_system env ("check_root_usage", check_root_usage) (by simp [checks]) r3 hr32 f hf
    have f4 : r4.2.filter (fun f => f.service == "System") = [] :=
      filter_system_nil _ fun f hf =>
        check_ok_not_system env ("check_users_without_mfa", check_users_without_mfa) (by simp [checks]) r4 hr42 f hf
    have f5 : r5.2.filter (fun f => f.service == "System") = [] :=
      filter_system_nil _ fun f hf =>
        check_ok_not_system env ("check_unused_access_keys", check_unused_access_keys) (by simp [checks]) r5 hr52 f hf
    refine ⟨?_, ?_, rfl, rfl, rfl, rfl, rfl⟩
    · show (checks.map (runCheckSafe env)).flatten = _
      simp only [checks, List.map_cons, List.map_nil, List.flatten_cons,
        List.flatten_nil, e0, o1, o2, o3, o4, o5, List.take, List.drop]
      simp
      try rfl
    · show ((checks.map (runCheckSafe env)).flatten).filter _ = _
      simp only [checks, List.map_cons, List.map_nil, List.flatten_cons,
        List.flatten_nil, e0, o1, o2, o3, o4, o5, List.filter_append, f1, f2, f3, f4, f5]
      simp [checkErrorFinding]
      try rfl

/-- Witness for C1: the S3 client constructor fails while every other
check runs normally. -/
theorem claim1_runner_isolation_witness :
    getDetailedFindingsList s3FailEnv =
      ((checks.take 0).map (runCheckSafe s3FailEnv)).flatten ++
        checkErrorFinding "check_s3_public_buckets"
            (.otherError "Unable to locate credentials") ::
          ((checks.drop 1).map (runCheckSafe s3FailEnv)).flatten ∧
    (getDetailedFindingsList s3FailEnv).filter (fun f => f.service == "System") =
      [checkErrorFinding "check_s3_public_buckets"
        (.otherError "Unable to locate credentials")] :=
  have h := claim1_runner_isolation s3FailEnv ⟨0, by decide⟩
    (.otherError "Unable to locate credentials") rfl
    (by
      intro j hj
      fin_cases j
      · exact absurd rfl hj
      · exact ⟨_, rfl⟩
      · exact ⟨_, rfl⟩
      · exact ⟨_, rfl⟩
      · exact ⟨_, rfl⟩
      · exact ⟨_, rfl⟩)
  ⟨h.1, h.2.1⟩
